import Mathlib

/-!
Shallow embedding of the WebSocket transport implemented in
sdk/core/azure-core/src/http/winhttp/win_http_websockets.cpp
(class WinHttpWebSocketTransport): the channel operations Close, CloseSocket,
GetCloseSocketInformation, SendFrame and ReceiveFrame.

The native WinHTTP layer is modelled by an explicit environment record giving
the error code and the output data of each native call. Each operation returns
an Except result paired with the list of observable events it performs, in
program order: cancellation checks, lock acquisitions and releases, and native
calls (with the handle value actually passed to them).
-/

namespace AzureWs

/-- Logical WebSocket frame types of the transport interface
(WebSocketFrameType as used by the cpp file). -/
inductive WebSocketFrameType where
  | FrameTypeText
  | FrameTypeBinary
  | FrameTypeTextFragment
  | FrameTypeBinaryFragment
  | FrameTypeClosed
deriving DecidableEq, Repr

/-- Wire buffer type WINHTTP_WEB_SOCKET_BINARY_MESSAGE_BUFFER_TYPE (winhttp.h value 0). -/
def WINHTTP_WEB_SOCKET_BINARY_MESSAGE_BUFFER_TYPE : Nat := 0

/-- Wire buffer type WINHTTP_WEB_SOCKET_BINARY_FRAGMENT_BUFFER_TYPE (winhttp.h value 1). -/
def WINHTTP_WEB_SOCKET_BINARY_FRAGMENT_BUFFER_TYPE : Nat := 1

/-- Wire buffer type WINHTTP_WEB_SOCKET_UTF8_MESSAGE_BUFFER_TYPE (winhttp.h value 2). -/
def WINHTTP_WEB_SOCKET_UTF8_MESSAGE_BUFFER_TYPE : Nat := 2

/-- Wire buffer type WINHTTP_WEB_SOCKET_UTF8_FRAGMENT_BUFFER_TYPE (winhttp.h value 3). -/
def WINHTTP_WEB_SOCKET_UTF8_FRAGMENT_BUFFER_TYPE : Nat := 3

/-- Wire buffer type WINHTTP_WEB_SOCKET_CLOSE_BUFFER_TYPE (winhttp.h value 4). -/
def WINHTTP_WEB_SOCKET_CLOSE_BUFFER_TYPE : Nat := 4

/-- Native error code ERROR_INSUFFICIENT_BUFFER (winerror.h value 122). -/
def ERROR_INSUFFICIENT_BUFFER : Nat := 122

/-- Exceptions thrown by the transport code: Cancelled models
Context::ThrowIfCancelled firing; TransportError models GetErrorAndThrow
(carrying the message and the native error code); ProtocolError models the
throw of std::runtime_error for protocol-level failures (unknown frame type,
close status mismatch), which the spec taxonomy calls a protocol error. -/
inductive WsError where
  | Cancelled
  | TransportError (msg : String) (code : Nat)
  | ProtocolError (msg : String)
deriving DecidableEq, Repr

/-- Modelled from the spec: the Azure::Core::Context implementation is not
among the sampled sources (only its caller is). Per the spec a context node
carries an optional absolute deadline and an optional cancellation flag. -/
structure ContextNode where
  deadline : Option Nat
  cancelledFlag : Bool
deriving DecidableEq, Repr

/-- Modelled from the spec: a Context value is the chain of its own node and
all ancestor nodes (contexts form a tree; a value sees its path to the root). -/
abbrev Context := List ContextNode

/-- Modelled from the spec: the effective cancellation state at time now is
the most restrictive over the chain — cancelled when any node in the chain has
its flag set or has a deadline that has passed. -/
def Context.isCancelled (ctx : Context) (now : Nat) : Bool :=
  ctx.any fun n =>
    n.cancelledFlag || (match n.deadline with
      | some d => decide (d ≤ now)
      | none => false)

/-- Lock objects of the channel: m_sendMutex and m_receiveMutex. -/
inductive LockId where
  | sendLock
  | recvLock
deriving DecidableEq, Repr

/-- Observable events of one operation, in program order. Native events record
the handle value passed to the native call (none models a null HINTERNET). -/
inductive Event where
  | CheckCancelled
  | LockAcquire (l : LockId)
  | LockRelease (l : LockId)
  | NativeSend (handle : Option Nat) (bufferType : Nat) (data : List Nat)
  | NativeReceive (handle : Option Nat)
  | NativeClose (handle : Option Nat) (status : Nat) (reason : String)
  | NativeQueryClose (handle : Option Nat)
deriving DecidableEq, Repr

/-- Channel state: m_socketHandle (none once reset) and a ghost counter of how
many times the native handle has been released by the unique-handle deleter. -/
structure ChannelState where
  socketHandle : Option Nat
  releaseCount : Nat
deriving DecidableEq, Repr

/-- Behaviour of the native WinHTTP layer for one operation: the error code
each native call returns (0 is success) and the outputs it writes.
recvData is the byte sequence WinHttpWebSocketReceive writes into the staging
buffer, recvBytesRead the byte count it reports, recvBufferType the wire
buffer type it reports; queryStatus and queryReason are the close status and
reason WinHttpWebSocketQueryCloseStatus writes. -/
structure NativeEnv where
  closeErr : Nat
  queryErr : Nat
  queryStatus : Nat
  queryReason : String
  sendErr : Nat
  recvErr : Nat
  recvData : List Nat
  recvBytesRead : Nat
  recvBufferType : Nat
deriving DecidableEq, Repr

/-- WinHttpWebSocketTransport::Close, line 53: m_socketHandle.reset().
With unique-handle semantics the reset releases the handle when one is held
and does nothing otherwise. -/
def close (st : ChannelState) : ChannelState :=
  match st.socketHandle with
  | some _ => { socketHandle := none, releaseCount := st.releaseCount + 1 }
  | none => st

/-- Frame-type translation of the switch in SendFrame (lines 145-162): the
four sendable logical types map to wire buffer types; the default branch
(none here) throws. -/
def frameTypeToBufferType : WebSocketFrameType → Option Nat
  | .FrameTypeText => some WINHTTP_WEB_SOCKET_UTF8_MESSAGE_BUFFER_TYPE
  | .FrameTypeBinary => some WINHTTP_WEB_SOCKET_BINARY_MESSAGE_BUFFER_TYPE
  | .FrameTypeBinaryFragment => some WINHTTP_WEB_SOCKET_BINARY_FRAGMENT_BUFFER_TYPE
  | .FrameTypeTextFragment => some WINHTTP_WEB_SOCKET_UTF8_FRAGMENT_BUFFER_TYPE
  | .FrameTypeClosed => none

/-- Wire classification of the switch in ReceiveFrame (lines 199-219): the
five recognized wire buffer types map back to logical frame types; the
default branch (none here) throws. -/
def bufferTypeToFrameType (bt : Nat) : Option WebSocketFrameType :=
  if bt = WINHTTP_WEB_SOCKET_UTF8_MESSAGE_BUFFER_TYPE then
    some .FrameTypeText
  else if bt = WINHTTP_WEB_SOCKET_BINARY_MESSAGE_BUFFER_TYPE then
    some .FrameTypeBinary
  else if bt = WINHTTP_WEB_SOCKET_BINARY_FRAGMENT_BUFFER_TYPE then
    some .FrameTypeBinaryFragment
  else if bt = WINHTTP_WEB_SOCKET_UTF8_FRAGMENT_BUFFER_TYPE then
    some .FrameTypeTextFragment
  else if bt = WINHTTP_WEB_SOCKET_CLOSE_BUFFER_TYPE then
    some .FrameTypeClosed
  else none

/-- Semantics of std::vector resize: truncate to n elements, zero-padding
when growing. -/
def listResize (l : List Nat) (n : Nat) : List Nat :=
  (l ++ List.replicate (n - l.length) 0).take n

/-- WinHttpWebSocketTransport::SendFrame (lines 138-175): cancellation check,
frame-type translation (throwing on an unknown type before any native call),
then under m_sendMutex the native send, throwing a transport error when the
native call fails. -/
def sendFrame (st : ChannelState) (env : NativeEnv) (frameType : WebSocketFrameType)
    (frameData : List Nat) (ctx : Context) (now : Nat) :
    Except WsError Unit × List Event :=
  if ctx.isCancelled now then
    (.error .Cancelled, [.CheckCancelled])
  else
    match frameTypeToBufferType frameType with
    | none => (.error (.ProtocolError "Unknown frame type."), [.CheckCancelled])
    | some bufferType =>
      if env.sendErr ≠ 0 then
        (.error (.TransportError "WinHttpWebSocketSend() failed" env.sendErr),
         [.CheckCancelled, .LockAcquire .sendLock,
          .NativeSend st.socketHandle bufferType frameData, .LockRelease .sendLock])
      else
        (.ok (),
         [.CheckCancelled, .LockAcquire .sendLock,
          .NativeSend st.socketHandle bufferType frameData, .LockRelease .sendLock])

/-- WinHttpWebSocketTransport::ReceiveFrame (lines 177-221): cancellation
check, then under m_receiveMutex the native receive into a 128-byte staging
buffer (ERROR_INSUFFICIENT_BUFFER is tolerated, any other nonzero code
throws a transport error), resize of the buffer to the reported byte count,
and classification of the reported wire buffer type (throwing on an
unrecognized type). -/
def receiveFrame (st : ChannelState) (env : NativeEnv) (ctx : Context) (now : Nat) :
    Except WsError (WebSocketFrameType × List Nat) × List Event :=
  if ctx.isCancelled now then
    (.error .Cancelled, [.CheckCancelled])
  else
    if env.recvErr ≠ 0 ∧ env.recvErr ≠ ERROR_INSUFFICIENT_BUFFER then
      (.error (.TransportError "WinHttpWebSocketReceive() failed" env.recvErr),
       [.CheckCancelled, .LockAcquire .recvLock,
        .NativeReceive st.socketHandle, .LockRelease .recvLock])
    else
      match bufferTypeToFrameType env.recvBufferType with
      | none =>
        (.error (.ProtocolError "Unknown frame type."),
         [.CheckCancelled, .LockAcquire .recvLock,
          .NativeReceive st.socketHandle, .LockRelease .recvLock])
      | some frameTypeReceived =>
        (.ok (frameTypeReceived,
          listResize (env.recvData ++ (List.replicate 128 0).drop env.recvData.length)
            env.recvBytesRead),
         [.CheckCancelled, .LockAcquire .recvLock,
          .NativeReceive st.socketHandle, .LockRelease .recvLock])

/-- WinHttpWebSocketTransport::GetCloseSocketInformation (lines 107-127):
cancellation check, then under m_receiveMutex the native close-status query,
throwing a transport error when it fails, otherwise returning the status and
reason the native layer reported. -/
def getCloseSocketInformation (st : ChannelState) (env : NativeEnv) (ctx : Context)
    (now : Nat) : Except WsError (Nat × String) × List Event :=
  if ctx.isCancelled now then
    (.error .Cancelled, [.CheckCancelled])
  else
    if env.queryErr ≠ 0 then
      (.error (.TransportError "WinHttpGetCloseStatus() failed" env.queryErr),
       [.CheckCancelled, .LockAcquire .recvLock,
        .NativeQueryClose st.socketHandle, .LockRelease .recvLock])
    else
      (.ok (env.queryStatus, env.queryReason),
       [.CheckCancelled, .LockAcquire .recvLock,
        .NativeQueryClose st.socketHandle, .LockRelease .recvLock])

/-- WinHttpWebSocketTransport::CloseSocket (lines 66-97): cancellation check,
native close (throwing a transport error on failure), second cancellation
check (with one context and one time it passes whenever the first did), the
close-status query, and the status-echo comparison throwing a runtime error
naming both values on mismatch. -/
def closeSocket (st : ChannelState) (env : NativeEnv) (status : Nat)
    (disconnectReason : String) (ctx : Context) (now : Nat) :
    Except WsError Unit × List Event :=
  if ctx.isCancelled now then
    (.error .Cancelled, [.CheckCancelled])
  else
    if env.closeErr ≠ 0 then
      (.error (.TransportError "WinHttpWebSocketClose() failed" env.closeErr),
       [.CheckCancelled, .NativeClose st.socketHandle status disconnectReason])
    else
      match getCloseSocketInformation st env ctx now with
      | (.error e, qt) =>
        (.error e,
         [.CheckCancelled, .NativeClose st.socketHandle status disconnectReason,
          .CheckCancelled] ++ qt)
      | (.ok closeInformation, qt) =>
        if closeInformation.1 ≠ status then
          (.error (.ProtocolError ("Close status mismatch, got "
              ++ toString closeInformation.1 ++ " expected " ++ toString status)),
           [.CheckCancelled, .NativeClose st.socketHandle status disconnectReason,
            .CheckCancelled] ++ qt)
        else
          (.ok (),
           [.CheckCancelled, .NativeClose st.socketHandle status disconnectReason,
            .CheckCancelled] ++ qt)

/-- Predicate selecting the blocking native I/O events of a trace. -/
def isNativeEvent : Event → Bool
  | .NativeSend _ _ _ => true
  | .NativeReceive _ => true
  | .NativeClose _ _ _ => true
  | .NativeQueryClose _ => true
  | _ => false

/-- Formalization of the flanking discipline claimed by the spec: every
blocking native call in the trace is immediately preceded and immediately
followed by a cancellation check. -/
def checksFlankNative (t : List Event) : Prop :=
  ∀ i, i < t.length → isNativeEvent (t.getD i .CheckCancelled) = true →
    1 ≤ i ∧ t.getD (i - 1) .CheckCancelled = .CheckCancelled ∧
    i + 1 < t.length ∧ t.getD (i + 1) .CheckCancelled = .CheckCancelled

/-- Weaker discipline: every blocking native call is preceded, somewhere
earlier in the same call, by a cancellation check. -/
def checkBeforeNative (t : List Event) : Prop :=
  ∀ i, i < t.length → isNativeEvent (t.getD i .CheckCancelled) = true →
    ∃ j, j < i ∧ t.getD j .CheckCancelled = .CheckCancelled

/-- Negative discipline: no cancellation check occurs anywhere after a
blocking native call within the same trace. -/
def noCheckAfterNative (t : List Event) : Prop :=
  ∀ i, i < t.length → isNativeEvent (t.getD i .CheckCancelled) = true →
    ∀ j, i < j → j < t.length → t.getD j .CheckCancelled ≠ .CheckCancelled

/-- Locks acquired over a trace, in order. -/
def locksAcquired (t : List Event) : List LockId :=
  t.filterMap fun e =>
    match e with
    | .LockAcquire l => some l
    | _ => none

/-- Effect of one event on the multiset of locks a thread holds. -/
def applyEvent (held : List LockId) : Event → List LockId
  | .LockAcquire l => l :: held
  | .LockRelease l => held.erase l
  | _ => held

/-- Locks held after executing all events of a trace from no locks held. -/
def heldAfter (t : List Event) : List LockId :=
  t.foldl applyEvent []

/-- Discipline that every blocking native call in the trace happens while the
given lock is held. -/
def nativeUnderLock (t : List Event) (l : LockId) : Prop :=
  ∀ i, i < t.length → isNativeEvent (t.getD i .CheckCancelled) = true →
    l ∈ heldAfter (t.take i)

/-- Concrete open channel used by witnesses and counterexamples. -/
def chOpen : ChannelState := { socketHandle := some 1, releaseCount := 0 }

/-- Concrete channel after Close: the handle is released. -/
def chClosed : ChannelState := close chOpen

/-- Concrete benign native environment: every native call succeeds; the query
echoes close status 1000; the receive delivers two bytes of a UTF-8 message. -/
def envOk : NativeEnv :=
  { closeErr := 0, queryErr := 0, queryStatus := 1000, queryReason := "",
    sendErr := 0, recvErr := 0, recvData := [7, 8], recvBytesRead := 2,
    recvBufferType := WINHTTP_WEB_SOCKET_UTF8_MESSAGE_BUFFER_TYPE }

/-- Concrete native environment where the native layer rejects the (null)
handle with ERROR_INVALID_HANDLE (6) on send and receive. -/
def envNullHandle : NativeEnv :=
  { envOk with sendErr := 6, recvErr := 6 }

/-- Concrete native environment reporting an unrecognized wire buffer type. -/
def envBadType : NativeEnv :=
  { envOk with recvBufferType := 9 }

/-- Concrete native environment for an oversized incoming frame: the native
receive reports ERROR_INSUFFICIENT_BUFFER after filling all 128 staging
bytes. -/
def envBig : NativeEnv :=
  { closeErr := 0, queryErr := 0, queryStatus := 1000, queryReason := "",
    sendErr := 0, recvErr := ERROR_INSUFFICIENT_BUFFER,
    recvData := List.replicate 128 5, recvBytesRead := 128,
    recvBufferType := WINHTTP_WEB_SOCKET_BINARY_MESSAGE_BUFFER_TYPE }

/-- Concrete native environment echoing close status 1001 from the peer. -/
def envEcho1001 : NativeEnv :=
  { envOk with queryStatus := 1001 }

/-- Helper: the one-event cancellation-only trace satisfies the
before-discipline vacuously. -/
theorem checkBeforeNative_single : checkBeforeNative [Event.CheckCancelled] := by
  intro i hi hn
  simp only [List.length_cons, List.length_nil] at hi
  interval_cases i; simp [isNativeEvent] at hn

/-- Helper: the one-event cancellation-only trace has no native call, so the
after-discipline holds vacuously. -/
theorem noCheckAfterNative_single : noCheckAfterNative [Event.CheckCancelled] := by
  intro i hi hn
  simp only [List.length_cons, List.length_nil] at hi
  interval_cases i; simp [isNativeEvent] at hn

/-- Helper: the check-lock-native-unlock trace shape satisfies the
before-discipline. -/
theorem checkBeforeNative_quad (l : LockId) (e : Event) :
    checkBeforeNative [Event.CheckCancelled, .LockAcquire l, e, .LockRelease l] := by
  intro i hi hn
  simp only [List.length_cons, List.length_nil] at hi
  interval_cases i
  · simp [isNativeEvent] at hn
  · simp [isNativeEvent] at hn
  · exact ⟨0, by omega, rfl⟩
  · simp [isNativeEvent] at hn

/-- Helper: the check-lock-native-unlock trace shape has no cancellation check
after position 1, so the after-discipline holds. -/
theorem noCheckAfterNative_quad (l : LockId) (e : Event) :
    noCheckAfterNative [Event.CheckCancelled, .LockAcquire l, e, .LockRelease l] := by
  intro i hi hn
  simp only [List.length_cons, List.length_nil] at hi
  interval_cases i
  · simp [isNativeEvent] at hn
  · simp [isNativeEvent] at hn
  · intro j h1 h2
    simp only [List.length_cons, List.length_nil] at h2
    interval_cases j
    simp
  · simp [isNativeEvent] at hn

/-- Helper: in the check-lock-native-unlock trace shape every native call
happens while the lock is held. -/
theorem nativeUnderLock_quad (l : LockId) (e : Event) :
    nativeUnderLock [Event.CheckCancelled, .LockAcquire l, e, .LockRelease l] l := by
  intro i hi hn
  simp only [List.length_cons, List.length_nil] at hi
  interval_cases i
  · simp [isNativeEvent] at hn
  · simp [isNativeEvent] at hn
  · simp [heldAfter, applyEvent, List.foldl]
  · simp [isNativeEvent] at hn

/-- Helper: a cancellation-only trace acquires no locks. -/
theorem nativeUnderLock_single (l : LockId) :
    nativeUnderLock [Event.CheckCancelled] l := by
  intro i hi hn
  simp only [List.length_cons, List.length_nil] at hi
  interval_cases i; simp [isNativeEvent] at hn

/-- Shape of SendFrame traces: either only the cancellation check ran, or the
trace is check, send-lock acquire, native send, send-lock release. -/
theorem sendFrame_trace_shape (st : ChannelState) (env : NativeEnv)
    (frameType : WebSocketFrameType) (frameData : List Nat) (ctx : Context) (now : Nat) :
    (sendFrame st env frameType frameData ctx now).2 = [Event.CheckCancelled] ∨
    ∃ bt, frameTypeToBufferType frameType = some bt ∧
      (sendFrame st env frameType frameData ctx now).2 =
        [Event.CheckCancelled, .LockAcquire .sendLock,
         .NativeSend st.socketHandle bt frameData, .LockRelease .sendLock] := by
  unfold sendFrame
  by_cases hc : ctx.isCancelled now
  · simp [hc]
  · simp only [hc, Bool.false_eq_true, if_false]
    cases hft : frameTypeToBufferType frameType with
    | none => simp
    | some bt =>
      by_cases hs : env.sendErr ≠ 0 <;> simp [hs, hft]

/-- Shape of ReceiveFrame traces: either only the cancellation check ran, or
the trace is check, receive-lock acquire, native receive, receive-lock
release. -/
theorem receiveFrame_trace_shape (st : ChannelState) (env : NativeEnv)
    (ctx : Context) (now : Nat) :
    (receiveFrame st env ctx now).2 = [Event.CheckCancelled] ∨
    (receiveFrame st env ctx now).2 =
      [Event.CheckCancelled, .LockAcquire .recvLock,
       .NativeReceive st.socketHandle, .LockRelease .recvLock] := by
  unfold receiveFrame
  by_cases hc : ctx.isCancelled now
  · simp [hc]
  · simp only [hc, Bool.false_eq_true, if_false]
    by_cases he : env.recvErr ≠ 0 ∧ env.recvErr ≠ ERROR_INSUFFICIENT_BUFFER
    · simp [he]
    · simp only [he, if_false]
      cases hbt : bufferTypeToFrameType env.recvBufferType <;> simp

/-- Shape of GetCloseSocketInformation traces: either only the cancellation
check ran, or the trace is check, receive-lock acquire, native query,
receive-lock release. -/
theorem getCloseSocketInformation_trace_shape (st : ChannelState) (env : NativeEnv)
    (ctx : Context) (now : Nat) :
    (getCloseSocketInformation st env ctx now).2 = [Event.CheckCancelled] ∨
    (getCloseSocketInformation st env ctx now).2 =
      [Event.CheckCancelled, .LockAcquire .recvLock,
       .NativeQueryClose st.socketHandle, .LockRelease .recvLock] := by
  unfold getCloseSocketInformation
  by_cases hc : ctx.isCancelled now
  · simp [hc]
  · by_cases hq : env.queryErr ≠ 0 <;> simp [hc, hq]

/-- Concrete context whose single node carries a deadline already in the past
at time 5. -/
def ctxPast : Context := [{ deadline := some 0, cancelledFlag := false }]

/-- Mirrored-stream native environment for the round-trip property: the
peer-side receive delivers exactly the sent payload bytes under the wire
buffer type produced by the send, with no native error. -/
def mirrorEnv (bt : Nat) (payload : List Nat) : NativeEnv :=
  { closeErr := 0, queryErr := 0, queryStatus := 0, queryReason := "",
    sendErr := 0, recvErr := 0, recvData := payload,
    recvBytesRead := payload.length, recvBufferType := bt }

/-- Helper: resizing a list always yields exactly the requested length. -/
theorem listResize_length (l : List Nat) (n : Nat) : (listResize l n).length = n := by
  simp only [listResize, List.length_take, List.length_append, List.length_replicate]
  omega

/-- Helper: resizing a list with trailing junk to the length of its meaningful
front part returns exactly that front part. -/
theorem listResize_append_left (l rest : List Nat) :
    listResize (l ++ rest) l.length = l := by
  unfold listResize
  rw [List.append_assoc]
  exact List.take_left _ _

/-- C2: the claim that in SendFrame, ReceiveFrame and the close-status query
every blocking native call is immediately preceded and immediately followed
by a cancellation check fails on the code: no cancellation check follows any
of these native calls (and the lock acquisition sits between the check and
the call). Concretely, in the SendFrame trace the native send at position 2
is preceded by the lock acquisition and followed by the lock release, not by
cancellation checks. -/
theorem C2_counterexample :
    ¬ checksFlankNative
      (sendFrame chOpen envOk .FrameTypeText [] [] 0).2 := by
  unfold checksFlankNative
  decide

/-- C2 (amended): in SendFrame, ReceiveFrame and the close-status query, every
blocking native I/O call is preceded by a cancellation check earlier in the
same call (the lock acquisition intervenes between the check and the native
call), but no cancellation check follows the native call anywhere in the
call, so cancellation requested while the native call blocks is not observed
on return. -/
theorem C2_amended (st : ChannelState) (env : NativeEnv) (ft : WebSocketFrameType)
    (data : List Nat) (ctx : Context) (now : Nat) :
    (checkBeforeNative (sendFrame st env ft data ctx now).2 ∧
     noCheckAfterNative (sendFrame st env ft data ctx now).2) ∧
    (checkBeforeNative (receiveFrame st env ctx now).2 ∧
     noCheckAfterNative (receiveFrame st env ctx now).2) ∧
    (checkBeforeNative (getCloseSocketInformation st env ctx now).2 ∧
     noCheckAfterNative (getCloseSocketInformation st env ctx now).2) := by
  refine ⟨?_, ?_, ?_⟩
  · rcases sendFrame_trace_shape st env ft data ctx now with h | ⟨bt, _, h⟩ <;> rw [h]
    · exact ⟨checkBeforeNative_single, noCheckAfterNative_single⟩
    · exact ⟨checkBeforeNative_quad _ _, noCheckAfterNative_quad _ _⟩
  · rcases receiveFrame_trace_shape st env ctx now with h | h <;> rw [h]
    · exact ⟨checkBeforeNative_single, noCheckAfterNative_single⟩
    · exact ⟨checkBeforeNative_quad _ _, noCheckAfterNative_quad _ _⟩
  · rcases getCloseSocketInformation_trace_shape st env ctx now with h | h <;> rw [h]
    · exact ⟨checkBeforeNative_single, noCheckAfterNative_single⟩
    · exact ⟨checkBeforeNative_quad _ _, noCheckAfterNative_quad _ _⟩

/-- C2 amended witness: the amended discipline instantiated at the concrete
open channel and benign environment. -/
theorem C2_witness :
    (checkBeforeNative (sendFrame chOpen envOk .FrameTypeText [7] [] 0).2 ∧
     noCheckAfterNative (sendFrame chOpen envOk .FrameTypeText [7] [] 0).2) ∧
    (checkBeforeNative (receiveFrame chOpen envOk [] 0).2 ∧
     noCheckAfterNative (receiveFrame chOpen envOk [] 0).2) ∧
    (checkBeforeNative (getCloseSocketInformation chOpen envOk [] 0).2 ∧
     noCheckAfterNative (getCloseSocketInformation chOpen envOk [] 0).2) :=
  C2_amended chOpen envOk .FrameTypeText [7] [] 0

/-- C6: when the effective state of the context is cancelled (flag set or
deadline passed anywhere in the chain), SendFrame, ReceiveFrame and
CloseSocket each fail with Cancelled at their first cancellation check: the
whole observable trace is that single check, so no native call is attempted
and no native state is touched. -/
theorem C6_cancelled_fails_before_native (st : ChannelState) (env : NativeEnv)
    (ft : WebSocketFrameType) (data : List Nat) (status : Nat) (reason : String)
    (ctx : Context) (now : Nat) (hc : ctx.isCancelled now = true) :
    sendFrame st env ft data ctx now = (.error .Cancelled, [.CheckCancelled]) ∧
    receiveFrame st env ctx now = (.error .Cancelled, [.CheckCancelled]) ∧
    closeSocket st env status reason ctx now = (.error .Cancelled, [.CheckCancelled]) := by
  unfold sendFrame receiveFrame closeSocket
  simp [hc]

/-- C6 witness: a context whose deadline 0 has passed at time 5 makes all
three operations fail with Cancelled before any native call. -/
theorem C6_witness :
    sendFrame chOpen envOk .FrameTypeText [7] ctxPast 5 =
      (.error .Cancelled, [.CheckCancelled]) ∧
    receiveFrame chOpen envOk ctxPast 5 = (.error .Cancelled, [.CheckCancelled]) ∧
    closeSocket chOpen envOk 1000 "bye" ctxPast 5 =
      (.error .Cancelled, [.CheckCancelled]) :=
  C6_cancelled_fails_before_native chOpen envOk .FrameTypeText [7] 1000 "bye" ctxPast 5
    (by decide)

/-- C7: Close is idempotent and releases the native handle at most once over
the channel lifetime: a second (or any later) Close is the identity, the
handle is null after any Close, the first Close from a held handle performs
exactly one release, and Close on an already-closed channel performs no
release and changes nothing. -/
theorem C7_close_idempotent (st : ChannelState) :
    close (close st) = close st ∧
    (∀ n : Nat, close^[n] (close st) = close st) ∧
    (close st).socketHandle = none ∧
    (∀ h, st.socketHandle = some h →
      (close st).releaseCount = st.releaseCount + 1) ∧
    (st.socketHandle = none → close st = st) := by
  have hidem : close (close st) = close st := by
    cases hst : st.socketHandle <;> simp [close, hst]
  refine ⟨hidem, ?_, ?_, ?_, ?_⟩
  · intro n
    induction n with
    | zero => rfl
    | succ k ih => rw [Function.iterate_succ_apply', ih, hidem]
  · cases hst : st.socketHandle <;> simp [close, hst]
  · intro h hh
    simp [close, hh]
  · intro hn
    simp [close, hn]

/-- C7 witness: on the concrete open channel, closing twice equals closing
once and the single close performs exactly one release. -/
theorem C7_witness :
    close (close chOpen) = close chOpen ∧
    (close chOpen).releaseCount = chOpen.releaseCount + 1 := by
  obtain ⟨h1, _, _, h4, _⟩ := C7_close_idempotent chOpen
  exact ⟨h1, h4 1 rfl⟩

/-- C8: whenever ReceiveFrame returns normally, the returned payload has
exactly the length the native receive reported as actually read: the 128-byte
staging buffer is resized (grown or trimmed) to that byte count before the
classified frame is returned. -/
theorem C8_receive_payload_length (st : ChannelState) (env : NativeEnv)
    (ctx : Context) (now : Nat) (ft : WebSocketFrameType) (payload : List Nat)
    (hok : (receiveFrame st env ctx now).1 = .ok (ft, payload)) :
    payload.length = env.recvBytesRead := by
  unfold receiveFrame at hok
  by_cases hc : ctx.isCancelled now
  · simp [hc] at hok
  · simp only [hc, Bool.false_eq_true, if_false] at hok
    by_cases he : env.recvErr ≠ 0 ∧ env.recvErr ≠ ERROR_INSUFFICIENT_BUFFER
    · simp [he] at hok
    · simp only [he, if_false] at hok
      cases hbt : bufferTypeToFrameType env.recvBufferType with
      | none => simp [hbt] at hok
      | some ft2 =>
        simp only [hbt, Except.ok.injEq, Prod.mk.injEq] at hok
        rw [← hok.2, listResize_length]

/-- C8 witness: the concrete benign receive returns the two delivered bytes,
whose length matches the reported byte count. -/
theorem C8_witness : ([7, 8] : List Nat).length = envOk.recvBytesRead :=
  C8_receive_payload_length chOpen envOk [] 0 .FrameTypeText [7, 8] rfl

/-- C5: the frame-type translation raises a protocol error exactly on
unrecognized types, in both directions. SendFrame fails with the protocol
error for every logical frame type outside the four sendable ones, with a
trace of only the cancellation check, so before any lock or native send; and
ReceiveFrame fails with the protocol error whenever the native layer reports
a wire buffer type outside the five recognized values (and the native receive
itself did not fail). -/
theorem C5_unknown_types_protocol_error (st : ChannelState) (env : NativeEnv)
    (ft : WebSocketFrameType) (data : List Nat) (ctx : Context) (now : Nat)
    (hc : ctx.isCancelled now = false)
    (hft : ft ∉ [WebSocketFrameType.FrameTypeText, .FrameTypeBinary,
      .FrameTypeTextFragment, .FrameTypeBinaryFragment])
    (hbtout : env.recvBufferType ∉ [WINHTTP_WEB_SOCKET_BINARY_MESSAGE_BUFFER_TYPE,
      WINHTTP_WEB_SOCKET_BINARY_FRAGMENT_BUFFER_TYPE,
      WINHTTP_WEB_SOCKET_UTF8_MESSAGE_BUFFER_TYPE,
      WINHTTP_WEB_SOCKET_UTF8_FRAGMENT_BUFFER_TYPE,
      WINHTTP_WEB_SOCKET_CLOSE_BUFFER_TYPE])
    (hre : env.recvErr = 0 ∨ env.recvErr = ERROR_INSUFFICIENT_BUFFER) :
    sendFrame st env ft data ctx now =
      (.error (.ProtocolError "Unknown frame type."), [.CheckCancelled]) ∧
    (receiveFrame st env ctx now).1 = .error (.ProtocolError "Unknown frame type.") := by
  constructor
  · have hftc : frameTypeToBufferType ft = none := by
      cases ft <;> simp_all [frameTypeToBufferType]
    unfold sendFrame
    simp [hc, hftc]
  · have hbt : bufferTypeToFrameType env.recvBufferType = none := by
      simp only [List.mem_cons, List.not_mem_nil, or_false, not_or] at hbtout
      obtain ⟨h0, h1, h2, h3, h4⟩ := hbtout
      simp [bufferTypeToFrameType, h0, h1, h2, h3, h4]
    have he : ¬ (env.recvErr ≠ 0 ∧ env.recvErr ≠ ERROR_INSUFFICIENT_BUFFER) := by
      rcases hre with h | h <;> simp [h]
    unfold receiveFrame
    simp [hc, he, hbt]

/-- C5 witness: sending the Closed frame type fails before any native call,
and receiving wire buffer type 9 fails with the protocol error. -/
theorem C5_witness :
    sendFrame chOpen envBadType .FrameTypeClosed [7] [] 0 =
      (.error (.ProtocolError "Unknown frame type."), [.CheckCancelled]) ∧
    (receiveFrame chOpen envBadType [] 0).1 =
      .error (.ProtocolError "Unknown frame type.") :=
  C5_unknown_types_protocol_error chOpen envBadType .FrameTypeClosed [7] [] 0
    (by decide) (by decide) (by decide) (Or.inl (by decide))

/-- C9: when the native receive reports ERROR_INSUFFICIENT_BUFFER because the
frame exceeds the 128-byte staging buffer, ReceiveFrame does not fail and
does not re-read: it returns normally with exactly the bytes the native layer
delivered (at most 128 of them), and its trace contains exactly one native
call — the frame is silently truncated at the public interface. -/
theorem C9_insufficient_buffer_truncates (st : ChannelState) (env : NativeEnv)
    (ctx : Context) (now : Nat) (ft : WebSocketFrameType)
    (hc : ctx.isCancelled now = false)
    (herr : env.recvErr = ERROR_INSUFFICIENT_BUFFER)
    (hwf : env.recvData.length = env.recvBytesRead)
    (hcap : env.recvData.length ≤ 128)
    (hbt : bufferTypeToFrameType env.recvBufferType = some ft) :
    (receiveFrame st env ctx now).1 = .ok (ft, env.recvData) ∧
    env.recvData.length ≤ 128 ∧
    (receiveFrame st env ctx now).2.countP (fun e => isNativeEvent e) = 1 := by
  have he : ¬ (env.recvErr ≠ 0 ∧ env.recvErr ≠ ERROR_INSUFFICIENT_BUFFER) := by
    simp [herr]
  refine ⟨?_, hcap, ?_⟩
  · unfold receiveFrame
    simp only [hc, Bool.false_eq_true, if_false, he, hbt]
    rw [← hwf, listResize_append_left]
  · unfold receiveFrame
    simp [hc, he, hbt, List.countP_cons, isNativeEvent]

/-- C9 witness: a 128-byte delivery flagged with ERROR_INSUFFICIENT_BUFFER is
returned normally, in full, from one native read. -/
theorem C9_witness :
    (receiveFrame chOpen envBig [] 0).1 =
      .ok (.FrameTypeBinary, List.replicate 128 5) ∧
    (List.replicate 128 (5 : Nat)).length ≤ 128 ∧
    (receiveFrame chOpen envBig [] 0).2.countP (fun e => isNativeEvent e) = 1 :=
  C9_insufficient_buffer_truncates chOpen envBig [] 0 .FrameTypeBinary
    (by decide) (by decide) (by simp [envBig]) (by simp [envBig]) (by decide)

/-- C3: the claim that operations on a closed channel fail fast with a
channel-closed error and never pass the released handle into a native call
fails on the code: on the concrete closed channel (null handle), SendFrame
and ReceiveFrame both reach the native call passing the null handle, and the
resulting failure is the native transport error, not a channel-closed
check. -/
theorem C3_counterexample :
    chClosed.socketHandle = none ∧
    Event.NativeSend none WINHTTP_WEB_SOCKET_UTF8_MESSAGE_BUFFER_TYPE [7] ∈
      (sendFrame chClosed envNullHandle .FrameTypeText [7] [] 0).2 ∧
    (sendFrame chClosed envNullHandle .FrameTypeText [7] [] 0).1 =
      .error (.TransportError "WinHttpWebSocketSend() failed" 6) ∧
    Event.NativeReceive none ∈ (receiveFrame chClosed envNullHandle [] 0).2 ∧
    (receiveFrame chClosed envNullHandle [] 0).1 =
      .error (.TransportError "WinHttpWebSocketReceive() failed" 6) := by
  refine ⟨rfl, ?_, rfl, ?_, rfl⟩ <;> decide

/-- C3 (amended): after Close has released the handle, SendFrame and
ReceiveFrame perform no channel-closed check: they pass the now-null handle
straight into the native I/O call, and when the native layer rejects it the
failure surfaces as the corresponding native transport error. -/
theorem C3_amended (st : ChannelState) (env : NativeEnv) (ft : WebSocketFrameType)
    (bt : Nat) (data : List Nat) (ctx : Context) (now : Nat)
    (hclosed : st.socketHandle = none)
    (hc : ctx.isCancelled now = false)
    (hft : frameTypeToBufferType ft = some bt) :
    Event.NativeSend none bt data ∈ (sendFrame st env ft data ctx now).2 ∧
    Event.NativeReceive none ∈ (receiveFrame st env ctx now).2 ∧
    (env.sendErr ≠ 0 → (sendFrame st env ft data ctx now).1 =
      .error (.TransportError "WinHttpWebSocketSend() failed" env.sendErr)) := by
  refine ⟨?_, ?_, ?_⟩
  · unfold sendFrame
    by_cases hs : env.sendErr ≠ 0 <;> simp [hc, hft, hs, hclosed]
  · unfold receiveFrame
    by_cases he : env.recvErr ≠ 0 ∧ env.recvErr ≠ ERROR_INSUFFICIENT_BUFFER
    · simp [hc, he, hclosed]
    · simp only [hc, Bool.false_eq_true, if_false, he]
      cases hbt : bufferTypeToFrameType env.recvBufferType <;> simp [hclosed]
  · intro hs
    unfold sendFrame
    simp [hc, hft, hs]

/-- C3 amended witness: the concrete closed channel reaches the native calls
with the null handle and surfaces the native invalid-handle error. -/
theorem C3_witness :
    Event.NativeSend none WINHTTP_WEB_SOCKET_UTF8_MESSAGE_BUFFER_TYPE [7] ∈
      (sendFrame chClosed envNullHandle .FrameTypeText [7] [] 0).2 ∧
    Event.NativeReceive none ∈ (receiveFrame chClosed envNullHandle [] 0).2 ∧
    (envNullHandle.sendErr ≠ 0 →
      (sendFrame chClosed envNullHandle .FrameTypeText [7] [] 0).1 =
        .error (.TransportError "WinHttpWebSocketSend() failed" envNullHandle.sendErr)) :=
  C3_amended chClosed envNullHandle .FrameTypeText
    WINHTTP_WEB_SOCKET_UTF8_MESSAGE_BUFFER_TYPE [7] [] 0 rfl (by decide) rfl

/-- C1: when neither cancellation check fires and both the native close and
the close-status query succeed, CloseSocket returns normally exactly when the
status echoed by the peer equals the status sent; on a mismatch it fails with
the protocol error whose message carries both the received and the sent
status values. -/
theorem C1_close_status_echo (st : ChannelState) (env : NativeEnv) (status : Nat)
    (reason : String) (ctx : Context) (now : Nat)
    (hc : ctx.isCancelled now = false) (h1 : env.closeErr = 0)
    (h2 : env.queryErr = 0) :
    ((closeSocket st env status reason ctx now).1 = .ok () ↔
      env.queryStatus = status) ∧
    (env.queryStatus ≠ status →
      (closeSocket st env status reason ctx now).1 =
        .error (.ProtocolError ("Close status mismatch, got "
          ++ toString env.queryStatus ++ " expected " ++ toString status))) := by
  unfold closeSocket getCloseSocketInformation
  by_cases hm : env.queryStatus = status
  · simp [hc, h1, h2, hm]
  · simp [hc, h1, h2, hm]

/-- C1 witness: a peer echoing status 1001 after CloseSocket(1000, "bye")
makes the call fail with the mismatch protocol error naming 1001 and 1000. -/
theorem C1_witness :
    ((closeSocket chOpen envEcho1001 1000 "bye" [] 0).1 = .ok () ↔
      envEcho1001.queryStatus = 1000) ∧
    (envEcho1001.queryStatus ≠ 1000 →
      (closeSocket chOpen envEcho1001 1000 "bye" [] 0).1 =
        .error (.ProtocolError ("Close status mismatch, got "
          ++ toString envEcho1001.queryStatus ++ " expected " ++ toString (1000 : Nat)))) :=
  C1_close_status_echo chOpen envEcho1001 1000 "bye" [] 0 rfl rfl rfl

/-- C4: for each of the four sendable frame types and any payload that fits
the peer staging buffer, the wire buffer type SendFrame passes to the native
send is classified by the ReceiveFrame switch back to the same logical frame
type, and a peer receive on the mirrored byte stream returns the payload
bytes unchanged. -/
theorem C4_roundtrip (st st2 : ChannelState) (env : NativeEnv)
    (ft : WebSocketFrameType) (payload : List Nat) (ctx : Context) (now : Nat)
    (hft : ft ≠ .FrameTypeClosed) (hc : ctx.isCancelled now = false)
    (_hlen : payload.length ≤ 128) :
    ∃ bt, frameTypeToBufferType ft = some bt ∧
      Event.NativeSend st.socketHandle bt payload ∈
        (sendFrame st env ft payload ctx now).2 ∧
      bufferTypeToFrameType bt = some ft ∧
      (receiveFrame st2 (mirrorEnv bt payload) ctx now).1 = .ok (ft, payload) := by
  have hsend : ∀ bt, frameTypeToBufferType ft = some bt →
      Event.NativeSend st.socketHandle bt payload ∈
        (sendFrame st env ft payload ctx now).2 := by
    intro bt hbt
    unfold sendFrame
    by_cases hs : env.sendErr ≠ 0 <;> simp [hc, hbt, hs]
  have hrecv : ∀ bt, bufferTypeToFrameType bt = some ft →
      (receiveFrame st2 (mirrorEnv bt payload) ctx now).1 = .ok (ft, payload) := by
    intro bt hbt
    unfold receiveFrame
    simp only [mirrorEnv, hc, Bool.false_eq_true, if_false, ne_eq, not_true_eq_false,
      false_and, if_false, hbt]
    rw [listResize_append_left]
  cases ft with
  | FrameTypeText =>
    exact ⟨_, rfl, hsend _ rfl, by decide, hrecv _ (by decide)⟩
  | FrameTypeBinary =>
    exact ⟨_, rfl, hsend _ rfl, by decide, hrecv _ (by decide)⟩
  | FrameTypeTextFragment =>
    exact ⟨_, rfl, hsend _ rfl, by decide, hrecv _ (by decide)⟩
  | FrameTypeBinaryFragment =>
    exact ⟨_, rfl, hsend _ rfl, by decide, hrecv _ (by decide)⟩
  | FrameTypeClosed =>
    exact absurd rfl hft

/-- C4 witness: a binary frame with payload bytes 1, 2, 3 round-trips through
the wire buffer type back to the same type and payload. -/
theorem C4_witness :
    ∃ bt, frameTypeToBufferType .FrameTypeBinary = some bt ∧
      Event.NativeSend chOpen.socketHandle bt [1, 2, 3] ∈
        (sendFrame chOpen envOk .FrameTypeBinary [1, 2, 3] [] 0).2 ∧
      bufferTypeToFrameType bt = some .FrameTypeBinary ∧
      (receiveFrame chOpen (mirrorEnv bt [1, 2, 3]) [] 0).1 =
        .ok (.FrameTypeBinary, [1, 2, 3]) :=
  C4_roundtrip chOpen chOpen envOk .FrameTypeBinary [1, 2, 3] [] 0
    (by decide) rfl (by decide)

/-- Two threads running one trace each on the same channel, together with the
locks each currently holds. -/
structure Sys where
  t1 : List Event
  t2 : List Event
  held1 : List LockId
  held2 : List LockId
deriving DecidableEq, Repr

/-- A thread is blocked exactly when its next event acquires a lock the other
thread currently holds. -/
def blockedEvent (e : Event) (otherHeld : List LockId) : Bool :=
  match e with
  | .LockAcquire l => decide (l ∈ otherHeld)
  | _ => false

/-- Interleaving semantics: either thread executes its next event whenever
that event is not blocked by a lock the other thread holds. -/
inductive Step : Sys → Sys → Prop where
  | left : ∀ (e : Event) (r : List Event) (s : Sys), s.t1 = e :: r →
      blockedEvent e s.held2 = false →
      Step s { t1 := r, t2 := s.t2, held1 := applyEvent s.held1 e, held2 := s.held2 }
  | right : ∀ (e : Event) (r : List Event) (s : Sys), s.t2 = e :: r →
      blockedEvent e s.held1 = false →
      Step s { t1 := s.t1, t2 := r, held1 := s.held1, held2 := applyEvent s.held2 e }

/-- Deadlock: some thread still has work, yet no step is possible. -/
def Deadlocked (s : Sys) : Prop :=
  (s.t1 ≠ [] ∨ s.t2 ≠ []) ∧ ∀ s2, ¬ Step s s2

/-- Deadlock freedom of a pair of traces run concurrently from no locks
held: no reachable system state is deadlocked. -/
def DeadlockFree (t1 t2 : List Event) : Prop :=
  ∀ s, Relation.ReflTransGen Step { t1 := t1, t2 := t2, held1 := [], held2 := [] } s →
    ¬ Deadlocked s

/-- Invariant tying a system state back to the lock alphabets of the original
traces: held locks and still-pending acquisitions stay inside each thread
starting alphabet. -/
def LockSubset (s : Sys) (t1o t2o : List Event) : Prop :=
  (∀ l ∈ s.held1, l ∈ locksAcquired t1o) ∧
  (∀ l ∈ s.held2, l ∈ locksAcquired t2o) ∧
  (∀ l ∈ locksAcquired s.t1, l ∈ locksAcquired t1o) ∧
  (∀ l ∈ locksAcquired s.t2, l ∈ locksAcquired t2o)

/-- Helper: acquisitions of a trace tail are acquisitions of the trace. -/
theorem locksAcquired_tail_subset (e : Event) (r : List Event) :
    ∀ l ∈ locksAcquired r, l ∈ locksAcquired (e :: r) := by
  intro l hl
  simp only [locksAcquired, List.filterMap_cons]
  cases e <;> simp_all [locksAcquired]

/-- Helper: one event keeps a thread held-lock set inside the union of what
it already held and what its remaining trace can acquire. -/
theorem applyEvent_subset (held : List LockId) (e : Event) (r : List Event)
    (tgt : List LockId)
    (hheld : ∀ l ∈ held, l ∈ tgt)
    (htrace : ∀ l ∈ locksAcquired (e :: r), l ∈ tgt) :
    ∀ l ∈ applyEvent held e, l ∈ tgt := by
  intro l hl
  cases e with
  | LockAcquire l2 =>
    simp only [applyEvent, List.mem_cons] at hl
    rcases hl with rfl | hl
    · exact htrace l (by simp [locksAcquired, List.filterMap_cons])
    · exact hheld l hl
  | LockRelease l2 =>
    exact hheld l (List.mem_of_mem_erase hl)
  | CheckCancelled => exact hheld l hl
  | NativeSend h bt d => exact hheld l hl
  | NativeReceive h => exact hheld l hl
  | NativeClose h st r2 => exact hheld l hl
  | NativeQueryClose h => exact hheld l hl

/-- Helper: the invariant is preserved by every interleaving step. -/
theorem lockSubset_step (s s2 : Sys) (t1o t2o : List Event)
    (hinv : LockSubset s t1o t2o) (hs : Step s s2) : LockSubset s2 t1o t2o := by
  obtain ⟨hh1, hh2, ht1, ht2⟩ := hinv
  cases hs with
  | left e r s ht hb =>
    rw [ht] at ht1
    exact ⟨applyEvent_subset s.held1 e r (locksAcquired t1o) hh1 ht1, hh2,
      fun l hl => ht1 l (locksAcquired_tail_subset e r l hl), ht2⟩
  | right e r s ht hb =>
    rw [ht] at ht2
    exact ⟨hh1, applyEvent_subset s.held2 e r (locksAcquired t2o) hh2 ht2, ht1,
      fun l hl => ht2 l (locksAcquired_tail_subset e r l hl)⟩

/-- Helper: the invariant holds along every reachable state. -/
theorem lockSubset_reachable (t1 t2 : List Event) (s : Sys)
    (h : Relation.ReflTransGen Step { t1 := t1, t2 := t2, held1 := [], held2 := [] } s) :
    LockSubset s t1 t2 := by
  induction h with
  | refl =>
    exact ⟨by simp, by simp, fun l hl => hl, fun l hl => hl⟩
  | tail h1 h2 ih =>
    exact lockSubset_step _ _ _ _ ih h2

/-- Helper: with disjoint lock alphabets neither thread is ever blocked, so
a state satisfying the invariant with pending work can always step. -/
theorem not_deadlocked_of_disjoint (t1o t2o : List Event) (s : Sys)
    (hdisj : ∀ l, l ∈ locksAcquired t1o → l ∉ locksAcquired t2o)
    (hinv : LockSubset s t1o t2o) : ¬ Deadlocked s := by
  obtain ⟨hh1, hh2, ht1, ht2⟩ := hinv
  rintro ⟨hne, hstep⟩
  rcases hne with hne | hne
  · cases hc : s.t1 with
    | nil => exact hne hc
    | cons e r =>
      have hb : blockedEvent e s.held2 = false := by
        cases e with
        | LockAcquire l =>
          simp only [blockedEvent, decide_eq_false_iff_not]
          intro hmem
          have hl2 : l ∈ locksAcquired t2o := hh2 l hmem
          have hl1 : l ∈ locksAcquired t1o := by
            apply ht1
            rw [hc]
            simp [locksAcquired, List.filterMap_cons]
          exact hdisj l hl1 hl2
        | LockRelease l => rfl
        | CheckCancelled => rfl
        | NativeSend h bt d => rfl
        | NativeReceive h => rfl
        | NativeClose h st r2 => rfl
        | NativeQueryClose h => rfl
      exact hstep _ (Step.left e r s hc hb)
  · cases hc : s.t2 with
    | nil => exact hne hc
    | cons e r =>
      have hb : blockedEvent e s.held1 = false := by
        cases e with
        | LockAcquire l =>
          simp only [blockedEvent, decide_eq_false_iff_not]
          intro hmem
          have hl1 : l ∈ locksAcquired t1o := hh1 l hmem
          have hl2 : l ∈ locksAcquired t2o := by
            apply ht2
            rw [hc]
            simp [locksAcquired, List.filterMap_cons]
          exact hdisj l hl1 hl2
        | LockRelease l => rfl
        | CheckCancelled => rfl
        | NativeSend h bt d => rfl
        | NativeReceive h => rfl
        | NativeClose h st r2 => rfl
        | NativeQueryClose h => rfl
      exact hstep _ (Step.right e r s hc hb)

/-- Helper: two traces whose lock alphabets are disjoint never deadlock when
interleaved. -/
theorem deadlockFree_of_disjointLocks (t1 t2 : List Event)
    (hdisj : ∀ l, l ∈ locksAcquired t1 → l ∉ locksAcquired t2) :
    DeadlockFree t1 t2 := fun s hreach =>
  not_deadlocked_of_disjoint t1 t2 s hdisj (lockSubset_reachable t1 t2 s hreach)

/-- Helper: every lock the SendFrame trace acquires is the send lock. -/
theorem sendFrame_locks (st : ChannelState) (env : NativeEnv)
    (ft : WebSocketFrameType) (data : List Nat) (ctx : Context) (now : Nat) :
    ∀ l ∈ locksAcquired (sendFrame st env ft data ctx now).2, l = LockId.sendLock := by
  rcases sendFrame_trace_shape st env ft data ctx now with h | ⟨bt, _, h⟩ <;>
    rw [h] <;> simp [locksAcquired, List.filterMap_cons]

/-- Helper: every lock the ReceiveFrame trace acquires is the receive lock. -/
theorem receiveFrame_locks (st : ChannelState) (env : NativeEnv)
    (ctx : Context) (now : Nat) :
    ∀ l ∈ locksAcquired (receiveFrame st env ctx now).2, l = LockId.recvLock := by
  rcases receiveFrame_trace_shape st env ctx now with h | h <;>
    rw [h] <;> simp [locksAcquired, List.filterMap_cons]

/-- Helper: every lock the close-status query trace acquires is the receive
lock. -/
theorem getCloseSocketInformation_locks (st : ChannelState) (env : NativeEnv)
    (ctx : Context) (now : Nat) :
    ∀ l ∈ locksAcquired (getCloseSocketInformation st env ctx now).2,
      l = LockId.recvLock := by
  rcases getCloseSocketInformation_trace_shape st env ctx now with h | h <;>
    rw [h] <;> simp [locksAcquired, List.filterMap_cons]

/-- C10: on one channel the native send happens under the send-path lock and
the native receive and close-status query happen under the receive-path lock;
the two locks are distinct and each operation acquires only its own lock, so
concurrent sends serialize on the send lock, concurrent receives (including
the close-status query) serialize on the receive lock, and a SendFrame run
concurrently with a ReceiveFrame (arbitrary interleaving of the two traces)
never reaches a deadlocked state. -/
theorem C10_full_duplex_lock_discipline (st st2 st3 : ChannelState)
    (env env2 env3 : NativeEnv) (ft : WebSocketFrameType) (data : List Nat)
    (ctx ctx2 ctx3 : Context) (now now2 now3 : Nat) :
    nativeUnderLock (sendFrame st env ft data ctx now).2 .sendLock ∧
    nativeUnderLock (receiveFrame st2 env2 ctx2 now2).2 .recvLock ∧
    nativeUnderLock (getCloseSocketInformation st3 env3 ctx3 now3).2 .recvLock ∧
    (∀ l ∈ locksAcquired (sendFrame st env ft data ctx now).2, l = LockId.sendLock) ∧
    (∀ l ∈ locksAcquired (receiveFrame st2 env2 ctx2 now2).2, l = LockId.recvLock) ∧
    (∀ l ∈ locksAcquired (getCloseSocketInformation st3 env3 ctx3 now3).2,
      l = LockId.recvLock) ∧
    LockId.sendLock ≠ LockId.recvLock ∧
    DeadlockFree (sendFrame st env ft data ctx now).2
      (receiveFrame st2 env2 ctx2 now2).2 := by
  refine ⟨?_, ?_, ?_, sendFrame_locks st env ft data ctx now,
    receiveFrame_locks st2 env2 ctx2 now2,
    getCloseSocketInformation_locks st3 env3 ctx3 now3, by simp, ?_⟩
  · rcases sendFrame_trace_shape st env ft data ctx now with h | ⟨bt, _, h⟩ <;> rw [h]
    · exact nativeUnderLock_single _
    · exact nativeUnderLock_quad _ _
  · rcases receiveFrame_trace_shape st2 env2 ctx2 now2 with h | h <;> rw [h]
    · exact nativeUnderLock_single _
    · exact nativeUnderLock_quad _ _
  · rcases getCloseSocketInformation_trace_shape st3 env3 ctx3 now3 with h | h <;> rw [h]
    · exact nativeUnderLock_single _
    · exact nativeUnderLock_quad _ _
  · apply deadlockFree_of_disjointLocks
    intro l hl1 hl2
    have h1 := sendFrame_locks st env ft data ctx now l hl1
    have h2 := receiveFrame_locks st2 env2 ctx2 now2 l hl2
    rw [h1] at h2
    exact LockId.noConfusion h2

/-- C10 witness: the lock discipline instantiated at concrete channel states,
environments and contexts. -/
theorem C10_witness :
    nativeUnderLock (sendFrame chOpen envOk .FrameTypeText [7] [] 0).2 .sendLock ∧
    nativeUnderLock (receiveFrame chOpen envOk [] 0).2 .recvLock ∧
    nativeUnderLock (getCloseSocketInformation chOpen envOk [] 0).2 .recvLock ∧
    (∀ l ∈ locksAcquired (sendFrame chOpen envOk .FrameTypeText [7] [] 0).2,
      l = LockId.sendLock) ∧
    (∀ l ∈ locksAcquired (receiveFrame chOpen envOk [] 0).2, l = LockId.recvLock) ∧
    (∀ l ∈ locksAcquired (getCloseSocketInformation chOpen envOk [] 0).2,
      l = LockId.recvLock) ∧
    LockId.sendLock ≠ LockId.recvLock ∧
    DeadlockFree (sendFrame chOpen envOk .FrameTypeText [7] [] 0).2
      (receiveFrame chOpen envOk [] 0).2 :=
  C10_full_duplex_lock_discipline chOpen chOpen chOpen envOk envOk envOk
    .FrameTypeText [7] [] [] [] 0 0 0

end AzureWs
